import Mathlib

/-!
Verification of the simulation_streams core engine (simulation_utils.py,
evaluator.py) against its natural-language specification.

The Python code is shallowly embedded: the mutable Python `dict` state is a
key/value association list (`PyState`), Python runtime values are the tagged
union `PyVal`, fallible Python code (uncaught exceptions) returns `Option`,
and the caught-exception paths of the source are modelled by `Except` /
`Option` at the exact point the source wraps them in `try`.

Two deliberate modelling notes, both called out again at the definitions:
* the source's `evaluator()` (evaluator.py line 27) takes no parameter while
  every call site passes `task_name`; all claims run with `task_name = ''`,
  for which the registry is the seed set, so the embedding builds the seed
  registry and ignores the argument;
* the external sampler oracle (`sampling`) is modelled as a function from the
  attempt counter to the returned candidate line, abstracting the prompt and
  context arguments the oracle receives.

Value aliasing (Python object identity) is invisible in the association-list
model; claim C3, which is exactly about aliasing, is settled on a separate
explicit-heap model of the same source lines (given near the end of the file).
-/

mutual

/-- Python runtime values as stored in the simulation state: the tagged union
of the kinds of values the engine manipulates (spec section 3).  `stateRef`
stands for the self-referential entry `state['state'] = state`
(simulation_utils.py line 98); `handle` stands for opaque objects such as the
`np` module and the sampling callable that the driver stores in the state.
Sequences and dict entries are mutual inductive types rather than nested
`List`s so that the recursive functions over values are structural. -/
inductive PyVal where
  | none
  | bool (b : Bool)
  | int (n : Int)
  | float (q : Rat)
  | str (s : String)
  | tuple (elems : PyValList)
  | list (elems : PyValList)
  | dict (entries : PyValPairs)
  | stateRef
  | handle (tag : String)

/-- The elements of a Python tuple or list value. -/
inductive PyValList where
  | nil
  | cons (head : PyVal) (tail : PyValList)

/-- The key/value entries of a Python dict value. -/
inductive PyValPairs where
  | nil
  | cons (key : PyVal) (val : PyVal) (tail : PyValPairs)

end

/-- Build an embedded sequence from a Lean list (notation convenience). -/
def PyValList.ofList : List PyVal → PyValList
  | [] => .nil
  | x :: rest => .cons x (PyValList.ofList rest)

/-- Is the embedded sequence empty. -/
def PyValList.isNil : PyValList → Bool
  | .nil => true
  | .cons _ _ => false

/-- Concatenation of embedded sequences (Python `+` on lists and tuples). -/
def PyValList.append : PyValList → PyValList → PyValList
  | .nil, b => b
  | .cons x rest, b => .cons x (PyValList.append rest b)

/-- Is the embedded dict empty. -/
def PyValPairs.isNil : PyValPairs → Bool
  | .nil => true
  | .cons _ _ _ => false

/-- Number of entries of the embedded dict (Python `len`). -/
def PyValPairs.length : PyValPairs → Nat
  | .nil => 0
  | .cons _ _ rest => PyValPairs.length rest + 1

/-- Numeric view of a Python value: `bool` is a subclass of `int` in Python,
so `True` reads as 1 and `False` as 0 for arithmetic and `==`. -/
def PyVal.asRat? : PyVal → Option Rat
  | .bool b => some (if b then 1 else 0)
  | .int n => some (n : Rat)
  | .float q => some q
  | _ => Option.none

mutual

/-- Python `==` on embedded values: numeric kinds (`bool`, `int`, `float`)
compare by numeric value, strings and `None` structurally, tuples and lists
elementwise, dicts entrywise in insertion order; distinct kinds are unequal.
Python dict equality is insensitive to insertion order; the entrywise
comparison is adequate here because no engine path compares two dict values
(queries compare scalars and lists).  `stateRef` equals only itself
(identity of the one self-referential dict). -/
def pyEq : PyVal → PyVal → Bool
  | .bool x, .bool y => x == y
  | .bool x, .int n => (if x then (1 : Int) else 0) == n
  | .bool x, .float q => (if x then (1 : Rat) else 0) == q
  | .int n, .bool y => n == (if y then (1 : Int) else 0)
  | .int n, .int m => n == m
  | .int n, .float q => (n : Rat) == q
  | .float q, .bool y => q == (if y then (1 : Rat) else 0)
  | .float q, .int n => q == (n : Rat)
  | .float q, .float r => q == r
  | .none, .none => true
  | .str s, .str t => s == t
  | .tuple a, .tuple b => pyEqList a b
  | .list a, .list b => pyEqList a b
  | .dict a, .dict b => pyEqPairs a b
  | .stateRef, .stateRef => true
  | .handle a, .handle b => a == b
  | _, _ => false

/-- Elementwise Python `==` of two sequences. -/
def pyEqList : PyValList → PyValList → Bool
  | .nil, .nil => true
  | .cons x xs, .cons y ys => pyEq x y && pyEqList xs ys
  | _, _ => false

/-- Entrywise comparison of two dicts: same keys and equal values in the
same order. -/
def pyEqPairs : PyValPairs → PyValPairs → Bool
  | .nil, .nil => true
  | .cons k v rest, .cons k2 v2 rest2 =>
      pyEq k k2 && pyEq v v2 && pyEqPairs rest rest2
  | _, _ => false

end

/-- Python truthiness of an embedded value, as used by
`if formula_data.get('query')` (simulation_utils.py line 158). -/
def pyTruthy : PyVal → Bool
  | .none => false
  | .bool b => b
  | .int n => n != 0
  | .float q => q != 0
  | .str s => s != ""
  | .tuple es => !es.isNil
  | .list es => !es.isNil
  | .dict es => !es.isNil
  | .stateRef => true
  | .handle _ => true

/-- Python `type(v).__name__` for the embedded kinds (simulation_utils.py
line 146).  The self-referential state and opaque handles are dict/object. -/
def pyTypeName : PyVal → String
  | .none => "NoneType"
  | .bool _ => "bool"
  | .int _ => "int"
  | .float _ => "float"
  | .str _ => "str"
  | .tuple _ => "tuple"
  | .list _ => "list"
  | .dict _ => "dict"
  | .stateRef => "dict"
  | .handle _ => "object"

/-- Python `isinstance(v, (int, float))`.  Crucially, `bool` is a subclass of
`int` in Python, so booleans satisfy this test. -/
def isinstanceIntFloat : PyVal → Bool
  | .int _ => true
  | .float _ => true
  | .bool _ => true
  | _ => false

/-- Python `isinstance(v, (int, float, np.number))` used for the sampled-value
type check (simulation_utils.py line 205); numpy scalars do not occur among
embedded values, and booleans pass because `bool` subclasses `int`. -/
def isinstanceNumeric : PyVal → Bool := isinstanceIntFloat

/-- Python `isinstance(v, bool)`. -/
def isinstanceBool : PyVal → Bool
  | .bool _ => true
  | _ => false

/-- Python `isinstance(v, str)`. -/
def isinstanceStr : PyVal → Bool
  | .str _ => true
  | _ => false

/-- Python whitespace characters recognised by `str.strip()` and `\s`. -/
def isPySpace (c : Char) : Bool :=
  c = ' ' || c = '\t' || c = '\n' || c = '\r' || c = '\x0b' || c = '\x0c'

/-- Python `s.strip()`: remove leading and trailing whitespace. -/
def pyStrip (s : String) : String :=
  ⟨(s.data.dropWhile isPySpace).reverse.dropWhile isPySpace |>.reverse⟩

/-- Contiguous sublist test used to embed Python `needle in s` on strings. -/
def subListOf (needle : List Char) : List Char → Bool
  | [] => needle.isEmpty
  | c :: rest => needle.isPrefixOf (c :: rest) || subListOf needle rest

/-- Python `needle in s` on strings: contiguous substring test. -/
def strContains (s needle : String) : Bool :=
  subListOf needle.data s.data

/-- Characters of `s` before the first occurrence of `c` (all of `s` if `c`
does not occur): Python `s.split(c)[0]`. -/
def beforeFirstChar (c : Char) (s : String) : String :=
  ⟨s.data.takeWhile (· ≠ c)⟩

/-- Python `s.split(c, 1)`: split at the first occurrence of `c`, returning
the two sides, or nothing when `c` does not occur (so that the source's
`IndexError` / unpacking `ValueError` on the missing piece is visible). -/
def splitFirstChar (c : Char) (s : String) : Option (String × String) :=
  if s.data.contains c then
    some (⟨s.data.takeWhile (· ≠ c)⟩, ⟨(s.data.dropWhile (· ≠ c)).tail⟩)
  else Option.none

/-- Python `s.rstrip('\n')`: remove trailing newline characters. -/
def rstripNewline (s : String) : String :=
  ⟨(s.data.reverse.dropWhile (· = '\n')).reverse⟩

/-- Python `len(s)` for the embedded strings. -/
def pyLen (s : String) : Nat := s.data.length

/-- Python `s.startswith(pre)`. -/
def pyStartsWith (s pre : String) : Bool :=
  pre.data.isPrefixOf s.data

/-- Python tail slice `s[-m:]` for an integer `m` (simulation_utils.py
line 56): for positive `m` the last `min(m, len(s))` characters, for `m = 0`
the whole string (the well-known `[-0:]` pitfall), and for negative `m` the
string with its first `-m` characters removed. -/
def pyTailSlice (s : String) (m : Int) : String :=
  if 0 < m then ⟨s.data.drop (s.data.length - m.toNat)⟩
  else if m = 0 then s
  else ⟨s.data.drop (-m).toNat⟩

/-- Scan for the closing `']` pair, returning the captured key and the rest
of the input. -/
def splitAtCloseQuote : List Char → Option (String × List Char)
  | [] => Option.none
  | '\'' :: ']' :: rest => some ("", rest)
  | c :: rest =>
      match splitAtCloseQuote rest with
      | some (key, remaining) => some (⟨c :: key.data⟩, remaining)
      | Option.none => Option.none

/-- Keys found by `re.findall(r"\['(.*?)'\]", lhs)` (simulation_utils.py
line 260): every non-greedy `['…']` segment of the left-hand side, in order.
Formulas are single-line, so the no-newline constraint of `.` is vacuous.
The structural fuel is one more than the input length; every step consumes
at least one character. -/
def extractSubscriptKeysF : Nat → List Char → List String
  | 0, _ => []
  | _, [] => []
  | fuel + 1, '[' :: '\'' :: rest =>
      (match splitAtCloseQuote rest with
       | some (key, remaining) => key :: extractSubscriptKeysF fuel remaining
       | Option.none => [])
  | fuel + 1, _ :: rest => extractSubscriptKeysF fuel rest

/-- The key scan at its adequate fuel. -/
def extractSubscriptKeys (l : List Char) : List String :=
  extractSubscriptKeysF (l.length + 1) l

/-- The simulation state: a Python `dict` keyed by strings, embedded as an
association list in insertion order (spec section 3). -/
abbrev PyState := List (String × PyVal)

/-- First value stored under the key, if any: Python `d[k]` / `k in d`. -/
def lookupState : PyState → String → Option PyVal
  | [], _ => Option.none
  | (k2, v2) :: rest, k => if k2 = k then some v2 else lookupState rest k

/-- Python `d[k] = v` on a string-keyed dict: replace the value of an
existing key in place, otherwise append the new key at the end (Python dicts
preserve insertion order). -/
def setKey : PyState → String → PyVal → PyState
  | [], k, v => [(k, v)]
  | (k2, v2) :: rest, k, v =>
      if k2 = k then (k2, v) :: rest else (k2, v2) :: setKey rest k v

/-- Python `k in d` for the string-keyed state. -/
def containsKey (st : PyState) (k : String) : Bool :=
  (lookupState st k).isSome

/-- Python `d.get(k, default)` for the string-keyed state. -/
def pyGet (st : PyState) (k : String) (default : PyVal) : PyVal :=
  (lookupState st k).getD default

/-- Python `d.update(other)`: set every key of `other` in order. -/
def updateState (st : PyState) (other : PyState) : PyState :=
  other.foldl (fun s kv => setKey s kv.1 kv.2) st

/-- Lookup in a nested (PyVal-keyed) dict by Python `==` on keys. -/
def pyDictGet : PyValPairs → PyVal → Option PyVal
  | .nil, _ => Option.none
  | .cons k2 v2 rest, k => if pyEq k2 k then some v2 else pyDictGet rest k

/-- Write into a nested (PyVal-keyed) dict: replace the first `==`-equal key,
else append. -/
def pyDictSet : PyValPairs → PyVal → PyVal → PyValPairs
  | .nil, k, v => .cons k v .nil
  | .cons k2 v2 rest, k, v =>
      if pyEq k2 k then .cons k2 v rest else .cons k2 v2 (pyDictSet rest k v)

/-- Escaping of one character inside a Python `repr` string literal delimited
by `q`: backslash, the delimiter and common control characters are escaped.
Other non-printable characters (rendered `\xNN` by Python) do not occur in the
engine's values and are passed through. -/
def pyReprEscapeChar (q : Char) (c : Char) : String :=
  if c = '\\' then "\\\\"
  else if c = '\n' then "\\n"
  else if c = '\t' then "\\t"
  else if c = '\r' then "\\r"
  else if c = q then "\\" ++ String.singleton q
  else String.singleton c

/-- Concatenation of the rendering of each character. -/
def strConcatMap (f : Char -> String) : List Char -> String
  | [] => ""
  | c :: rest => f c ++ strConcatMap f rest

/-- Python `repr` of a string: single-quoted, except double-quoted when the
string contains a single quote but no double quote. -/
def pyReprStr (s : String) : String :=
  if s.data.contains '\'' && !(s.data.contains '"') then
    "\"" ++ strConcatMap (pyReprEscapeChar '"') s.data ++ "\""
  else
    "\x27" ++ strConcatMap (pyReprEscapeChar '\'') s.data ++ "\x27"

/-- Decimal rendering used for `float` values in formatted output.  Exact
CPython float formatting is not modelled; no claim exercises a float in an
output line. -/
def pyFloatStr (q : Rat) : String :=
  if q.den = 1 then toString q.num ++ ".0" else toString q.num ++ "/" ++ toString q.den

mutual

/-- Python `repr(v)` for embedded values, as used for sampled container and
string values (simulation_utils.py line 215). -/
def pyRepr : PyVal → String
  | .none => "None"
  | .bool b => if b then "True" else "False"
  | .int n => toString n
  | .float q => pyFloatStr q
  | .str s => pyReprStr s
  | .tuple (.cons x .nil) => "(" ++ pyRepr x ++ ",)"
  | .tuple xs => "(" ++ pyReprJoin xs ++ ")"
  | .list xs => "[" ++ pyReprJoin xs ++ "]"
  | .dict es => "\x7b" ++ pyReprPairs es ++ "\x7d"
  | .stateRef => "\x7b...\x7d"
  | .handle tag => "<" ++ tag ++ ">"

/-- Comma-separated `repr`s of the elements of a sequence. -/
def pyReprJoin : PyValList → String
  | .nil => ""
  | .cons x .nil => pyRepr x
  | .cons x rest => pyRepr x ++ ", " ++ pyReprJoin rest

/-- Comma-separated `key: value` `repr`s of the entries of a dict. -/
def pyReprPairs : PyValPairs → String
  | .nil => ""
  | .cons k v .nil => pyRepr k ++ ": " ++ pyRepr v
  | .cons k v rest => pyRepr k ++ ": " ++ pyRepr v ++ ", " ++ pyReprPairs rest

end

/-- Python `str(v)` as interpolated by an f-string `{value}`: numbers and
booleans bare, strings verbatim, containers via `repr`, `None` as `None`. -/
def pyStrOut : PyVal → String
  | .none => "None"
  | .bool b => if b then "True" else "False"
  | .int n => toString n
  | .float q => pyFloatStr q
  | .str s => s
  | .tuple xs => pyRepr (.tuple xs)
  | .list xs => pyRepr (.list xs)
  | .dict es => pyRepr (.dict es)
  | .stateRef => "\x7b...\x7d"
  | .handle tag => "<" ++ tag ++ ">"

/-- Abstract syntax of the expression fragment the claims exercise, mirroring
the node kinds of the safe evaluator (evaluator.py class Evaluator):
constants (`visit_Constant`), names (`visit_Name`) and binary `+`
(`visit_BinOp` with `ast.Add`).  The claims only evaluate expressions of this
fragment; the remaining node kinds of the source are never reached by them. -/
inductive PyExpr where
  | const (v : PyVal)
  | name (x : String)
  | add (l r : PyExpr)

/-- Token stream of the expression fragment. -/
inductive PyTok where
  | ident (s : String)
  | intLit (n : Nat)
  | strLit (s : String)
  | plus

/-- Is the character an identifier continuation character. -/
def isIdentChar (c : Char) : Bool :=
  c.isAlpha || c.isDigit || c = '_'

/-- Decimal digits to a natural number (Python integer literal value). -/
def digitsToNat (acc : Nat) : List Char → Nat
  | [] => acc
  | c :: rest => digitsToNat (acc * 10 + (c.toNat - '0'.toNat)) rest

/-- Tokenizer for the embedded expression fragment of `ast.parse(expr,
mode='eval')`: identifiers, decimal integer literals, single- or double-quoted
string literals without escapes, `+`, and whitespace.  Anything else is a
syntax error (`Option.none`).  The structural fuel is instantiated with one
more than the input length; since every step consumes at least one
character, the fuel never runs out. -/
def pyTokenizeF : Nat → List Char → Option (List PyTok)
  | 0, _ => Option.none
  | _, [] => some []
  | fuel + 1, c :: rest =>
    if isPySpace c then pyTokenizeF fuel rest
    else if c = '+' then do pure (PyTok.plus :: (← pyTokenizeF fuel rest))
    else if c.isDigit then
      let digits := c :: rest.takeWhile Char.isDigit
      let rest2 := rest.dropWhile Char.isDigit
      do pure (PyTok.intLit (digitsToNat 0 digits) :: (← pyTokenizeF fuel rest2))
    else if c.isAlpha || c = '_' then
      let id := c :: rest.takeWhile isIdentChar
      let rest2 := rest.dropWhile isIdentChar
      do pure (PyTok.ident ⟨id⟩ :: (← pyTokenizeF fuel rest2))
    else if c = '"' || c = '\'' then
      let body := rest.takeWhile (· ≠ c)
      match rest.dropWhile (· ≠ c) with
      | _ :: rest2 => do pure (PyTok.strLit ⟨body⟩ :: (← pyTokenizeF fuel rest2))
      | [] => Option.none
    else Option.none

/-- The tokenizer at its adequate fuel. -/
def pyTokenize (l : List Char) : Option (List PyTok) :=
  pyTokenizeF (l.length + 1) l

/-- Parse one atom: the keywords `True`, `False`, `None` are constants (as in
the Python grammar), any other identifier is a `Name` node, and literals are
constants. -/
def parseAtom : PyTok → Option PyExpr
  | .ident "True" => some (.const (.bool true))
  | .ident "False" => some (.const (.bool false))
  | .ident "None" => some (.const .none)
  | .ident x => some (.name x)
  | .intLit n => some (.const (.int (n : Int)))
  | .strLit s => some (.const (.str s))
  | .plus => Option.none

/-- Fold a left-associative chain `atom (+ atom)*` over the remaining
tokens. -/
def parseAddChain (acc : PyExpr) : List PyTok → Option PyExpr
  | [] => some acc
  | .plus :: t :: rest => do parseAddChain (.add acc (← parseAtom t)) rest
  | _ => Option.none

/-- Parser for the embedded fragment: a whole expression is a left-associative
`+`-chain of atoms; trailing tokens are a syntax error. -/
def parsePyExpr (s : String) : Option PyExpr := do
  match (← pyTokenize s.data) with
  | [] => Option.none
  | t :: rest => parseAddChain (← parseAtom t) rest

/-- Names registered in `evaluator()` (evaluator.py lines 27-116): math,
builtin, string-method, random/maze and statistics functions.  Looking one up
as a bare name yields the function object (`visit_Name`, line 421). -/
def registryNames : List String :=
  ["ceil", "floor", "sqrt", "exp", "log", "log10", "sin", "cos", "tan",
   "asin", "acos", "atan", "degrees", "radians", "pi", "e",
   "abs", "round", "min", "max", "sum", "len", "sorted", "enumerate", "zip",
   "any", "all", "filter", "map", "str", "int", "float", "bool", "dict",
   "lower", "upper", "title", "capitalize", "strip", "lstrip", "rstrip",
   "replace", "split", "join", "startswith", "endswith", "find", "count",
   "random", "randint", "tile_map", "object_map", "get_maze_obstacles",
   "get_maze_start_x", "get_maze_start_y", "get_maze_goal_position",
   "get_maze_goal_position_x", "get_maze_goal_position_y",
   "mean", "median", "mode", "stdev", "variance"]

/-- Python `+` (`operator.add`, evaluator.py line 341): numeric addition with
`bool` counting as `int`, concatenation for strings, lists and tuples; any
other combination raises `TypeError`. -/
def pyAdd : PyVal → PyVal → Except String PyVal
  | .bool x, .bool y => .ok (.int ((if x then 1 else 0) + (if y then 1 else 0)))
  | .bool x, .int m => .ok (.int ((if x then 1 else 0) + m))
  | .int n, .bool y => .ok (.int (n + (if y then 1 else 0)))
  | .int n, .int m => .ok (.int (n + m))
  | .float q, .float r => .ok (.float (q + r))
  | .float q, .int m => .ok (.float (q + (m : Rat)))
  | .int n, .float r => .ok (.float ((n : Rat) + r))
  | .float q, .bool y => .ok (.float (q + (if y then 1 else 0)))
  | .bool x, .float r => .ok (.float ((if x then 1 else 0) + r))
  | .str s, .str t => .ok (.str (s ++ t))
  | .list a, .list b => .ok (.list (a.append b))
  | .tuple a, .tuple b => .ok (.tuple (a.append b))
  | _, _ => .error "TypeError: unsupported operand type for +"

/-- Evaluation of a parsed node against the injected name table, mirroring
`Evaluator.visit_Constant`, `visit_Name` and `visit_BinOp` (evaluator.py):
a name resolves first in `self.names` (the state), then in `self.functions`
(the registry, yielding the function object), else `NameError`. -/
def evalPyExpr (names : PyState) : PyExpr → Except String PyVal
  | .const v => .ok v
  | .name x =>
      match lookupState names x with
      | some v => .ok v
      | Option.none =>
          if registryNames.contains x then .ok (.handle ("function " ++ x))
          else .error ("NameError: name " ++ x ++ " is not defined")
  | .add l r => do pyAdd (← evalPyExpr names l) (← evalPyExpr names r)

/-- The safe evaluator's `s.eval(expr)` with `s.names = names`
(evaluator.py line 373): parse then evaluate; a parse failure is the
`SyntaxError` that `ast.parse` raises.  The `evaluator(task_name)`
construction is embedded as the seed registry: the claims all run with
`task_name = ''`, for which no task functions are added. -/
def evalExprString (names : PyState) (s : String) : Except String PyVal :=
  match parsePyExpr s with
  | some e => evalPyExpr names e
  | Option.none => .error "SyntaxError"

/-- Python `'\n'.join(results)`: the matching output lines separated by
single newlines. -/
def joinWithNewline : List String → String
  | [] => ""
  | [x] => x
  | x :: rest => x ++ "\n" ++ joinWithNewline rest

/-- One entry of the append-only history: the state snapshot, the output
lines and the operator id (simulation_utils.py lines 331-335).  The operator
id is kept as a `PyVal` because a conditional `next` may evaluate to any
value. -/
structure HistoryStep where
  state : PyState
  output : List String
  operator_id : PyVal

/-- Python `x in v` for a list value: elementwise `==`. -/
def pyIn (x : PyVal) : PyValList → Bool
  | .nil => false
  | .cons e rest => pyEq e x || pyIn x rest

/-- The per-step match of `query_history` (simulation_utils.py lines 82-87):
for every query pair `(k, v)`, compare `step['state'].get(k)` (so `None` when
the key is missing) to `v` with `==`, or, when `v` is a list, test membership
of the retrieved value in `v`. -/
def stepMatches (step : HistoryStep) (kwargs : List (String × PyVal)) : Bool :=
  kwargs.all (fun kv =>
    match kv.2 with
    | .list l => pyIn (pyGet step.state kv.1 .none) l
    | v => pyEq (pyGet step.state kv.1 .none) v)

/-- Embedding of `query_history` (simulation_utils.py lines 69-91): collect
the output lines of the steps matching every keyword filter, join them with
newlines, strip trailing newlines and append exactly one. -/
def query_history (history : List HistoryStep)
    (kwargs : List (String × PyVal)) : String :=
  let results := ((history.filter (stepMatches · kwargs)).map (·.output)).flatten
  let context := joinWithNewline results
  rstripNewline context ++ "\n"

/-- The fixed truncation notice of `read_context` (simulation_utils.py
lines 60-63). -/
def truncationNotice : String :=
  "[Note: The following history has been truncated due to length" ++
  " constraints and can, due to this, start mid-turn.]\n\n"

/-- Query-value expansion of `read_context` (simulation_utils.py lines 44-49):
a string value naming a state key is replaced by the state value, every other
value is kept literally. -/
def expandQuery (query : List (String × PyVal)) (st : PyState) :
    List (String × PyVal) :=
  query.map (fun kv =>
    match kv.2 with
    | .str s => (kv.1, pyGet st s (.str s))
    | v => (kv.1, v))

/-- The value of `current_state.get('max_context_length', 1000000)` as the
integer used in `len(context) > max` and `context[-max:]`: an `int` directly,
a `bool` as 0/1 (Python), and `Option.none` for a value of any other kind,
on which the comparison or the slice would raise `TypeError`. -/
def getMaxContextLength (st : PyState) : Option Int :=
  match pyGet st "max_context_length" (.int 1000000) with
  | .int n => some n
  | .bool b => some (if b then 1 else 0)
  | _ => Option.none

/-- Embedding of `read_context` (simulation_utils.py lines 27-66): the query
is `Option.none` for Python `None` (empty context), otherwise a string-keyed
dict; its values are expanded against the state, the history is filtered, and
the result is cut to the last `max_context_length` characters, prepending the
truncation notice when `len(context) > max_context_length`.  The result is
`Option.none` exactly when the Python call would raise (non-numeric
`max_context_length`). -/
def read_context (history : List HistoryStep)
    (query : Option (List (String × PyVal))) (st : PyState) : Option String :=
  match query with
  | Option.none => some ""
  | some q =>
      let context := query_history history (expandQuery q st)
      match getMaxContextLength st with
      | Option.none => Option.none
      | some m =>
          let isTruncated := (pyLen context : Int) > m
          let truncated := pyTailSlice context m
          some (if isTruncated then truncationNotice ++ truncated else truncated)

/-- Python `isinstance(v, tuple)`. -/
def isinstanceTuple : PyVal → Bool
  | .tuple _ => true
  | _ => false

/-- Python `isinstance(v, list)`. -/
def isinstanceList : PyVal → Bool
  | .list _ => true
  | _ => false

/-- Python `isinstance(v, dict)`; the self-referential state is a dict. -/
def isinstanceDict : PyVal → Bool
  | .dict _ => true
  | .stateRef => true
  | _ => false

/-- Expected-type derivation from the evaluated default right-hand side
(simulation_utils.py lines 141-146).  The first branch tests
`isinstance(default_value, (int, float))`, which booleans satisfy in Python,
so the following `elif isinstance(default_value, bool)` branch is
unreachable; the embedding keeps both branches exactly as written. -/
def deriveExpectedType (v : PyVal) : String :=
  if isinstanceIntFloat v then "number"
  else if isinstanceBool v then "bool"
  else pyTypeName v

/-- Acceptance test for a sampled value against the expected type
(simulation_utils.py lines 203-212): the disjunction of
`is_number or is_bool or is_str or is_tuple or is_list or is_dict`. -/
def acceptsType (expectedType : String) (v : PyVal) : Bool :=
  (["number", "int", "int64", "float"].contains expectedType
      && isinstanceNumeric v)
  || (expectedType == "bool" && isinstanceBool v)
  || (expectedType == "str" && isinstanceStr v)
  || (expectedType == "tuple" && isinstanceTuple v)
  || (expectedType == "list" && isinstanceList v)
  || (expectedType == "dict" && isinstanceDict v)

/-- Python `isinstance(value, (str, tuple, list, dict))` deciding whether the
accepted-sample output line uses `repr` (simulation_utils.py line 214). -/
def needsQuotedRepr : PyVal → Bool
  | .str _ => true
  | .tuple _ => true
  | .list _ => true
  | .dict _ => true
  | .stateRef => true
  | _ => false

/-- Output line of an accepted sampled assignment (simulation_utils.py
lines 213-220): `repr` for strings and containers, bare `str` otherwise, with
the ` # sampled` suffix iff the LM is active. -/
def acceptedOutputLine (lhs : String) (v : PyVal) (useLmActive : Bool) :
    String :=
  (if needsQuotedRepr v then lhs ++ " = " ++ pyRepr v
   else lhs ++ " = " ++ pyStrOut v)
  ++ (if useLmActive then " # sampled" else "")

/-- Output line of the direct-evaluation path (simulation_utils.py
lines 270-275): string values wrapped in literal double quotes, other values
bare, with the ` # sampled` suffix iff the LM is active (never, on this
path). -/
def directOutputLine (lhs : String) (v : PyVal) (useLmActive : Bool) :
    String :=
  (if isinstanceStr v then lhs ++ " = \"" ++ pyStrOut v ++ "\""
   else lhs ++ " = " ++ pyStrOut v)
  ++ (if useLmActive then " # sampled" else "")

/-- Fallback line on sampler exhaustion (simulation_utils.py lines 281-287):
the current state value of the default left-hand side (the string `Unknown`
when absent), wrapped in literal single quotes when it is a string, with the
` # sampled` suffix iff the LM is active. -/
def exhaustLine (st : PyState) (lhs : String) (useLmActive : Bool) : String :=
  let value := pyGet st lhs (.str "Unknown")
  (if isinstanceStr value then lhs ++ " = \x27" ++ pyStrOut value ++ "\x27"
   else lhs ++ " = " ++ pyStrOut value)
  ++ (if useLmActive then " # sampled" else "")

/-- Prompt resolution (simulation_utils.py lines 101-105): a `prompt` field on
the operator names a state key (falling back to the literal), otherwise the
state's own `prompt` entry is read with `state['prompt']`, whose `KeyError`
on a missing key is the `Option.none` case. -/
def resolvePrompt (fd st1 : PyState) : Option PyVal :=
  if containsKey fd "prompt" then
    match pyGet fd "prompt" .none with
    | .str s => some (pyGet st1 s (.str s))
    | v => some v
  else lookupState st1 "prompt"

/-- Python `prompt += feedback` succeeds for a string (concatenation) and for
a list (extension by the characters); other kinds raise `TypeError`.  Only
the success kind is needed to model the retry loop's feedback step. -/
def promptAugmentOk : PyVal → Bool
  | .str _ => true
  | .list _ => true
  | _ => false

/-- Branch selection on `use_lm` (simulation_utils.py lines 107-125): a
string is evaluated against the state (an evaluation error prints and falls
back to `False`), a boolean is used directly, and any other value takes the
final `else` branch (`use_default = True`).  The `callable` branch cannot be
taken by a data value stored in an operator dict. -/
def resolveUseLm (fd st1 : PyState) : Bool × Bool :=
  let setting := pyGet fd "use_lm" (.bool false)
  let setting :=
    match setting with
    | .str s =>
        (match evalExprString st1 s with
         | .ok r => r
         | .error _ => .bool false)
    | v => v
  match setting with
  | .bool b => (!b, b)
  | _ => (true, false)

/-- Keyword-dict view of a `query` value: the keys of the dict must be
strings to be splatted as `**expanded_query`; any other key kind raises. -/
def queryEntries : PyValPairs → Option (List (String × PyVal))
  | .nil => some []
  | .cons k v rest => do
      match k with
      | .str s => pure ((s, v) :: (← queryEntries rest))
      | _ => Option.none

/-- Context construction of the LM path (simulation_utils.py lines 156-160):
the context is built through `read_context` only when the operator's `query`
field is truthy, else it is the empty string; `query.items()` on a truthy
non-dict raises. -/
def buildContext (fd st1 : PyState) (history : List HistoryStep) :
    Option String :=
  let q := pyGet fd "query" .none
  if pyTruthy q then
    match q with
    | .dict es => do read_context history (some (← queryEntries es)) st1
    | _ => Option.none
  else some ""

/-- Nested write into a PyVal-keyed dict along string keys, creating empty
dicts for missing intermediate keys and failing (Python `TypeError`) when an
intermediate value exists but is not a dict (simulation_utils.py
lines 261-266). -/
def setDictPath (d : PyValPairs) : List String → PyVal → Option PyValPairs
  | [], _ => Option.none
  | [k], v => some (pyDictSet d (.str k) v)
  | k :: rest, v =>
      match pyDictGet d (.str k) with
      | Option.none => do
          pure (pyDictSet d (.str k) (.dict (← setDictPath .nil rest v)))
      | some (.dict d2) => do
          pure (pyDictSet d (.str k) (.dict (← setDictPath d2 rest v)))
      | some _ => Option.none

/-- Subscript assignment of the direct path (simulation_utils.py
lines 259-266): the walk starts at the state itself and follows the keys
captured from the `['…']` segments of the left-hand side — the base name
before the first bracket is dropped by the source's regular expression, so
`d['a']['b'] = v` writes `state['a']['b']`, never `state['d']`. -/
def updateSubscriptState (st : PyState) : List String → PyVal →
    Option PyState
  | [], _ => Option.none
  | [k], v => some (setKey st k v)
  | k :: rest, v =>
      match lookupState st k with
      | Option.none => do
          pure (setKey st k (.dict (← setDictPath .nil rest v)))
      | some (.dict d) => do
          pure (setKey st k (.dict (← setDictPath d rest v)))
      | some _ => Option.none

/-- The `try` block of the direct-evaluation path (simulation_utils.py
lines 250-275): split the formula at the first `=`, evaluate the right-hand
side, assign (flat key or subscript path) and format the output line.
`Option.none` is the caught exception: unsplittable or non-string formula,
evaluation error, or failed subscript walk — in each of these no state write
has happened yet, matching the source's mutation order. -/
def directTry (st1 : PyState) (formulaVal : PyVal) (useLmActive : Bool) :
    Option (PyState × List String) := do
  let f ← (match formulaVal with | .str f => some f | _ => Option.none)
  let (l, r) ← splitFirstChar '=' f
  let lhs := pyStrip l
  let rhs := pyStrip r
  let value ← (evalExprString st1 rhs).toOption
  let st2 ←
    if strContains lhs "['" then
      updateSubscriptState st1 (extractSubscriptKeys lhs.data) value
    else some (setKey st1 lhs value)
  pure (st2, [directOutputLine lhs value useLmActive])

/-- The non-LM branch of the runner (simulation_utils.py lines 248-279): a
`blank` formula emits the comment line `# \n`; otherwise the `try` block
runs, and a caught exception leaves the state as it was and emits nothing. -/
def directPath (st1 : PyState) (formulaVal : PyVal) (useLmActive : Bool) :
    PyState × List String :=
  if !(pyEq formulaVal (.str "blank")) then
    match directTry st1 formulaVal useLmActive with
    | some r => r
    | Option.none => (st1, [])
  else (st1, ["# \n"])

/-- The candidate text considered at one attempt (simulation_utils.py
lines 178-194): in `full` sample mode (read from the state each iteration)
the oracle text itself, in any other mode the oracle text concatenated after
`lhs = `. -/
def sampledFormulaAt (st : PyState) (lhs : String) (sampler : Nat -> String)
    (attempts : Nat) : String :=
  if pyEq (pyGet st "sample_mode" (.str "full")) (.str "full") then
    sampler attempts
  else lhs ++ " = " ++ sampler attempts

/-- The sampler retry loop (simulation_utils.py lines 162-247).  The sampler
oracle is a function of the attempt counter; in `rhs_only` mode its text is
concatenated after `lhs = `.  An iteration fails (and the counter advances)
when the candidate does not start with the default left-hand side, has no
`=`, fails to evaluate, or has a value of the wrong type; on success the
value is written to the state and the loop breaks with the accepted line.
Every iteration after a failure first appends feedback to the prompt, which
raises (overall `Option.none`) when the prompt value supports no `+=`.
The structural fuel is instantiated with `maxAttempts`; one unit is spent
per iteration, so the fuel-exhausted case coincides with the loop guard
`attempts < max_attempts` turning false. -/
def lmLoop (maxAttempts : Nat) (sampler : Nat → String) (lhs : String)
    (expectedType : String) (promptOk : Bool) (useLmActive : Bool) :
    Nat → PyState → Nat → Option (PyState × List String × Nat)
  | 0, st, attempts => some (st, [], attempts)
  | fuel + 1, st, attempts =>
    if attempts < maxAttempts then
      if 0 < attempts && !promptOk then Option.none
      else
        let sampled := sampledFormulaAt st lhs sampler attempts
        if pyStartsWith sampled lhs then
          match splitFirstChar '=' sampled with
          | Option.none =>
              lmLoop maxAttempts sampler lhs expectedType promptOk useLmActive
                fuel st (attempts + 1)
          | some (_, r) =>
              match evalExprString st (pyStrip r) with
              | .error _ =>
                  lmLoop maxAttempts sampler lhs expectedType promptOk
                    useLmActive fuel st (attempts + 1)
              | .ok value =>
                  if acceptsType expectedType value then
                    some (setKey st lhs value,
                          [acceptedOutputLine lhs value useLmActive], attempts)
                  else
                    lmLoop maxAttempts sampler lhs expectedType promptOk
                      useLmActive fuel st (attempts + 1)
        else
          lmLoop maxAttempts sampler lhs expectedType promptOk useLmActive
            fuel st (attempts + 1)
    else some (st, [], attempts)

/-- The complete acceptance test one loop iteration applies to the candidate
of attempt `n` against state `st` (simulation_utils.py lines 196-220): the
candidate starts with the default left-hand side, splits at `=`, its
right-hand side evaluates without error, and the value has the expected
type.  Its negation collects every rejection mode of the loop: shape
failure, missing `=`, evaluation error, or type mismatch. -/
def candidateAccepted (st : PyState) (lhs et : String)
    (sampler : Nat → String) (n : Nat) : Bool :=
  pyStartsWith (sampledFormulaAt st lhs sampler n) lhs &&
    (match splitFirstChar '=' (sampledFormulaAt st lhs sampler n) with
     | Option.none => false
     | some (_, r) =>
         match evalExprString st (pyStrip r) with
         | .error _ => false
         | .ok value => acceptsType et value)

/-- The expected-type derivation of the LM path (simulation_utils.py
lines 137-154) as a standalone function of the state and the default
formula: the default right-hand side is evaluated and classified, with `str`
as the fallback for a missing `=` or an evaluation error.  Definitionally
equal to the inline computation inside `run_formula`. -/
@[reducible] def lmExpectedType (st : PyState) (f : String) : String :=
  match splitFirstChar '=' f with
  | some (_, r) =>
      (match evalExprString st (pyStrip r) with
       | .ok v => deriveExpectedType v
       | .error _ => "str")
  | Option.none => "str"

/-- Embedding of `run_formula` (simulation_utils.py lines 94-289).  The state
first receives its self-reference, the prompt and the `use_lm` branch are
resolved, then either the sampler retry loop or the direct path runs; after
both, a spent attempt budget appends the fallback line (on the direct path
this fires only when `max_attempts = 0`, with the initial empty
`default_assignment`).  `Option.none` is an uncaught Python exception. -/
def run_formula (st : PyState) (fd : PyState) (maxAttempts : Nat)
    (sampler : Nat → String) (history : List HistoryStep) :
    Option (PyState × List String) := do
  let formulaVal ← lookupState fd "formula"
  let st1 := setKey st "state" .stateRef
  let prompt ← resolvePrompt fd st1
  let (useDefault, useLmActive) := resolveUseLm fd st1
  if !useDefault then
    let f ← (match formulaVal with | .str f => some f | _ => Option.none)
    let lhs := pyStrip (beforeFirstChar '=' f)
    let expectedType :=
      match splitFirstChar '=' f with
      | some (_, r) =>
          (match evalExprString st1 (pyStrip r) with
           | .ok v => deriveExpectedType v
           | .error _ => "str")
      | Option.none => "str"
    let _ctx ← buildContext fd st1 history
    let (st2, out, attempts) ← lmLoop maxAttempts sampler lhs expectedType
        (promptAugmentOk prompt) useLmActive maxAttempts st1 0
    if maxAttempts ≤ attempts then
      pure (st2, out ++ [exhaustLine st2 lhs useLmActive])
    else pure (st2, out)
  else
    let (st2, out) := directPath st1 formulaVal useLmActive
    if maxAttempts ≤ 0 then
      pure (st2, out ++ [exhaustLine st2 "" useLmActive])
    else pure (st2, out)

/-- Driver start-up (simulation_utils.py lines 308-310): copy the initial
state and store the numpy module and the sampling callable under `np` and
`sampling` (opaque handles in the embedding). -/
def simulationInit (initial : PyState) : PyState :=
  setKey (setKey initial "np" (.handle "numpy module")) "sampling"
    (.handle "sampling function")

/-- Metadata copy of the driver (simulation_utils.py lines 322-324): every
operator field except `id`, `formula` and `next` is written into the state
before the runner executes. -/
def metadataInto (st : PyState) (fd : PyState) : PyState :=
  fd.foldl
    (fun s kv =>
      if kv.1 = "id" || kv.1 = "formula" || kv.1 = "next" then s
      else setKey s kv.1 kv.2)
    st

/-- Operator lookup by id (simulation_utils.py lines 317-319), comparing the
stored `id` to the current operator id with Python `==`.  Compiled operators
always carry an `id`; the embedding treats an operator without one as
non-matching (the source would raise `KeyError` while filtering). -/
def findOperator (operators : List PyState) (opId : PyVal) : Option PyState :=
  operators.find? (fun op =>
    match lookupState op "id" with
    | some v => pyEq v opId
    | Option.none => false)

/-- Fall-through computation (simulation_utils.py lines 340-348): when the
blank-padded rendering of the `next` field contains the token ` if `, the
stripped field is evaluated against the state (a non-string field would lack
`.strip()` and raise); otherwise the field value is the next id verbatim. -/
def nextOperatorId (fd : PyState) (st : PyState) : Option PyVal := do
  let nv ← lookupState fd "next"
  if strContains (" " ++ pyStrOut nv ++ " ") " if " then
    match nv with
    | .str s => (evalExprString st (pyStrip s)).toOption
    | _ => Option.none
  else some nv

/-- Finite unrolling of `simulation_stream_generator` (simulation_utils.py
lines 316-348): each step finds the operator, copies its metadata into the
state, runs the runner, appends the step (state snapshot, output, operator
id) to the history and computes the next operator id.  In the value model
the snapshot `state.copy()` is the state value itself; aliasing through the
copy is studied separately in the heap model below. -/
def runSteps (operators : List PyState) (maxAttempts : Nat)
    (sampler : Nat → String) :
    Nat → PyState → PyVal → List HistoryStep →
    Option (PyState × List HistoryStep)
  | 0, st, _, hist => some (st, hist)
  | n + 1, st, opId, hist => do
      let fd ← findOperator operators opId
      let st1 := metadataInto st fd
      let (st2, out) ← run_formula st1 fd maxAttempts sampler hist
      let hist2 := hist ++ [HistoryStep.mk st2 out opId]
      let nid ← nextOperatorId fd st2
      runSteps operators maxAttempts sampler n st2 nid hist2

/-- Run the step driver from an initial state for a fixed number of steps
(simulation_utils.py lines 292-348). -/
def runSimulation (initial : PyState) (operators : List PyState)
    (firstOp : PyVal) (maxAttempts : Nat) (sampler : Nat → String)
    (n : Nat) : Option (PyState × List HistoryStep) :=
  runSteps operators maxAttempts sampler n (simulationInit initial) firstOp []

/-- The callable-initializer pattern
`^[a-zA-Z_][a-zA-Z0-9_]*\s*\(.*\)$` of `is_callable_expression`
(simulation_utils.py lines 421-425), matched against the stripped string:
an identifier, optional whitespace, then a parenthesised tail whose last
character closes it and whose interior has no newline (`.` does not match
newlines). -/
def matchCallablePattern : List Char → Bool
  | [] => false
  | c :: rest =>
      if c.isAlpha || c = '_' then
        let rest3 := (rest.dropWhile isIdentChar).dropWhile isPySpace
        match rest3 with
        | '(' :: mid =>
            (match mid.getLast? with
             | some ')' => mid.dropLast.all (· ≠ '\n')
             | _ => false)
        | _ => false
      else false

/-- Embedding of `is_callable_expression` (simulation_utils.py
lines 421-425). -/
def is_callable_expression (v : PyVal) : Bool :=
  match v with
  | .str s => matchCallablePattern (pyStrip s).data
  | _ => false

/-- Association lookup for the configuration's `variables` table, whose
missing entry is the source's `KeyError` at `variables[variable]`
(simulation_utils.py line 452). -/
def lookupVariables (varTable : List (String × List (String × PyVal)))
    (name : String) : Option (List (String × PyVal)) :=
  match varTable with
  | [] => Option.none
  | (k, v) :: rest =>
      if k = name then some v else lookupVariables rest name

/-- Component construction of the ECS compiler (simulation_utils.py
lines 449-464): for every entity and each of its variables, every
`(attr, initial)` pair yields the component `f"{entity}_{attr}"`; a string
initial value matching the callable pattern is evaluated against the (still
default-free) state, keeping the string on an evaluation error, and any other
value is stored as is. -/
def buildComponents (entities : List (String × List String))
    (varTable : List (String × List (String × PyVal))) (st0 : PyState) :
    Option PyState :=
  entities.foldlM
    (fun comps ev =>
      ev.2.foldlM
        (fun comps varName => do
          let attrs ← lookupVariables varTable varName
          pure (attrs.foldl
            (fun comps cv =>
              let full := ev.1 ++ "_" ++ cv.1
              if is_callable_expression cv.2 then
                match cv.2 with
                | .str s =>
                    (match evalExprString st0 s with
                     | .ok v => setKey comps full v
                     | .error _ => setKey comps full cv.2)
                | v => setKey comps full v
              else setKey comps full cv.2)
            comps))
        comps)
    []

/-- The default entries written into the state at the end of
`generate_operators` (simulation_utils.py lines 529-536). -/
def defaultStateEntries : PyState :=
  [("agent_index", .int 0), ("prompt", .str ""),
   ("max_context_length", .int 1000000), ("sample_mode", .str "full"),
   ("all", .bool true)]

/-- Initial state produced by `generate_operators` (simulation_utils.py
lines 428-537): an empty dict, made self-referential, updated with the
components, and finally updated with the default values.  The systems
rendering of lines 469-527 builds the operator list and never writes to
`state`, so the state returned by the source is exactly this composition;
in particular the default update comes last and overwrites any component
whose full name collides with a default key. -/
def generate_operators_state (entities : List (String × List String))
    (varTable : List (String × List (String × PyVal))) : Option PyState := do
  let st0 : PyState := [("state", .stateRef)]
  let comps ← buildComponents entities varTable st0
  pure (updateState (updateState st0 comps) defaultStateEntries)

/-- The Clock configuration's single operator (spec section 8 scenario 1):
entity `world`, variable `heading`, formula `world_time = world_time + 1`,
no query, `use_lm` false, and `next` wired to itself (the single-operator
ring produced by the compiler's next-wiring). -/
def clockOperator : PyState :=
  [("id", .str "operator_1_world_heading"),
   ("formula", .str "world_time = world_time + 1"),
   ("query", .none),
   ("use_lm", .bool false),
   ("next", .str "operator_1_world_heading")]

/-- The Clock configuration's compiled initial state: entity `world` with
variable `heading` mapping attribute `time` to 0, so that the component
`world_time = 0` is created and the compiler defaults are present. -/
def clockInitialState : Option PyState :=
  generate_operators_state [("world", ["heading"])]
    [("heading", [("time", .int 0)])]

/-- Run the Clock configuration for `n` driver steps.  The sampler is never
consulted because the only operator has `use_lm` false. -/
def clockRun (n : Nat) : Option (PyState × List HistoryStep) :=
  match clockInitialState with
  | some st =>
      runSimulation st [clockOperator] (.str "operator_1_world_heading") 3
        (fun _ => "") n
  | Option.none => Option.none

/-- Heap values of the aliasing model: an immediate value or a reference to
a heap cell holding a nested dict.  This second model makes Python object
identity explicit, which the association-list state cannot express. -/
inductive HVal where
  | imm (v : PyVal)
  | ref (addr : Nat)

/-- One dict object on the heap. -/
abbrev HDict := List (String × HVal)

/-- The heap: dict objects addressed by their index.  The live simulation
state is the cell at address 0. -/
abbrev Heap := List HDict

/-- Lookup in a heap dict. -/
def hLookup : HDict → String → Option HVal
  | [], _ => Option.none
  | (k2, v2) :: rest, k => if k2 = k then some v2 else hLookup rest k

/-- Write into a heap dict, replacing an existing key in place. -/
def hSet : HDict → String → HVal → HDict
  | [], k, v => [(k, v)]
  | (k2, v2) :: rest, k, v =>
      if k2 = k then (k2, v) :: rest else (k2, v2) :: hSet rest k v

/-- The dict object at a heap address. -/
def heapGet (h : Heap) (a : Nat) : HDict := h.getD a []

/-- Replace the dict object at a heap address. -/
def heapSet (h : Heap) (a : Nat) (cell : HDict) : Heap := h.set a cell

/-- The subscript-assignment walk of `run_formula` on the heap
(simulation_utils.py lines 259-266): starting at the state cell, follow each
intermediate key; a missing key allocates a fresh empty dict (Python
`current_dict[key] = {}`), an existing non-reference value raises.  The
final key is written in place in the cell reached — the mutation every alias
of that cell observes. -/
def heapAssignPath (h : Heap) (addr : Nat) : List String → PyVal → Option Heap
  | [], _ => Option.none
  | [k], v => some (heapSet h addr (hSet (heapGet h addr) k (.imm v)))
  | k :: rest, v =>
      match hLookup (heapGet h addr) k with
      | Option.none =>
          let newAddr := h.length
          let h1 := heapSet h addr (hSet (heapGet h addr) k (.ref newAddr))
          heapAssignPath (h1 ++ [[]]) newAddr rest v
      | some (.ref a2) => heapAssignPath h a2 rest v
      | some (.imm _) => Option.none

/-- The direct path of `run_formula` on the heap for the non-LM fragment the
aliasing scenario exercises (simulation_utils.py lines 94-105 and 248-276):
set the state's self-reference, require `state['prompt']`, split the
formula, evaluate the (literal) right-hand side — the scenario's right-hand
sides are constants, so the name table is not consulted — and assign through
the subscript walk or as a flat key. -/
def heapRunFormula (h : Heap) (formula : String) :
    Option (Heap × List String) := do
  let h := heapSet h 0 (hSet (heapGet h 0) "state" (.ref 0))
  let _ ← hLookup (heapGet h 0) "prompt"
  let (l, r) ← splitFirstChar '=' formula
  let lhs := pyStrip l
  let value ← (evalExprString [] (pyStrip r)).toOption
  let h2 ←
    if strContains lhs "['" then
      heapAssignPath h 0 (extractSubscriptKeys lhs.data) value
    else some (heapSet h 0 (hSet (heapGet h 0) lhs (.imm value)))
  pure (h2, [directOutputLine lhs value false])

/-- The snapshot `state.copy()` of the driver (simulation_utils.py
line 332): allocate a new dict object with the same top-level entries as the
state cell — entry values that are references now alias the same heap
cells.  Returns the new heap and the snapshot's address. -/
def heapSnapshot (h : Heap) : Heap × Nat := (h ++ [heapGet h 0], h.length)

/-- One driver step on the heap (simulation_utils.py lines 316-338) for an
operator carrying only `id`, `formula` and `next` (so the metadata copy
writes nothing): run the formula, then snapshot the state into the history.
The history is represented by the list of snapshot addresses. -/
def heapStep (h : Heap) (formula : String) : Option (Heap × Nat) := do
  let (h2, _) ← heapRunFormula h formula
  pure (heapSnapshot h2)

/-- Run a list of formulas as consecutive driver steps on the heap,
collecting the snapshot address of each step in order. -/
def heapRun : Heap → List String → Option (Heap × List Nat)
  | h, [] => some (h, [])
  | h, f :: rest => do
      let (h2, a) ← heapStep h f
      let (h3, as) ← heapRun h2 rest
      pure (h3, a :: as)

/-- Read a value from a heap dict through a path of keys, following
references. -/
def readHeapPath (h : Heap) (addr : Nat) : List String → Option PyVal
  | [] => Option.none
  | [k] =>
      match hLookup (heapGet h addr) k with
      | some (.imm v) => some v
      | _ => Option.none
  | k :: rest =>
      match hLookup (heapGet h addr) k with
      | some (.ref a2) => readHeapPath h a2 rest
      | _ => Option.none

/-- Initial heap of the aliasing scenario: the state cell holds only the
`prompt` entry the runner requires. -/
def aliasInitialHeap : Heap := [[("prompt", .imm (.str ""))]]

/-- The two steps of the aliasing scenario: two nested subscript assignments
to the same path.  The first allocates the nested dict, the second mutates
it in place. -/
def aliasFormulas : List String := ["d['a']['b'] = 1", "d['a']['b'] = 2"]

/-- Writing a key makes it readable. -/
theorem lookupState_setKey_same (st : PyState) (k : String) (v : PyVal) :
    lookupState (setKey st k v) k = some v := by
  induction st with
  | nil => simp [setKey, lookupState]
  | cons kv rest ih =>
      by_cases h : kv.1 = k
      · simp [setKey, h, lookupState]
      · simp [setKey, h, lookupState, ih]

/-- Writing one key leaves every other key unchanged. -/
theorem lookupState_setKey_diff (st : PyState) (k k2 : String) (v : PyVal)
    (h : k ≠ k2) : lookupState (setKey st k v) k2 = lookupState st k2 := by
  induction st with
  | nil => simp [setKey, lookupState, h]
  | cons kv rest ih =>
      by_cases h2 : kv.1 = k
      · simp [setKey, h2, lookupState, h]
      · simp [setKey, h2, lookupState, ih]

/-- Rewriting a key with the value it already holds is the identity: the
`state['state'] = state` write at the head of the runner leaves a state that
already carries its self-reference unchanged. -/
theorem setKey_self (st : PyState) (k : String) (v : PyVal)
    (h : lookupState st k = some v) : setKey st k v = st := by
  induction st with
  | nil => simp [lookupState] at h
  | cons kv rest ih =>
      obtain ⟨k1, v1⟩ := kv
      by_cases h2 : k1 = k
      · simp [lookupState, h2] at h
        simp [setKey, h2, h]
      · simp [lookupState, h2] at h
        simp [setKey, h2, ih h]

/-- When no candidate passes the full acceptance test — whether it fails the
shape check, has no `=`, fails to evaluate, or has a value of the wrong
type — the retry loop runs through its whole budget without a state write or
an output line, ending with the attempt counter at the budget. -/
theorem lmLoop_never_accepted
    (m : Nat) (sampler : Nat → String) (lhs et : String) (useLm : Bool)
    (st : PyState)
    (hs : ∀ n, candidateAccepted st lhs et sampler n = false) :
    ∀ fuel attempts, attempts + fuel = m →
      lmLoop m sampler lhs et true useLm fuel st attempts =
        some (st, [], m) := by
  intro fuel
  induction fuel with
  | zero =>
      intro attempts h
      have he : attempts = m := by omega
      subst he
      rfl
  | succ n ih =>
      intro attempts h
      have hlt : attempts < m := by omega
      have hacc := hs attempts
      unfold candidateAccepted at hacc
      simp only [lmLoop, hlt, if_true, Bool.not_true, Bool.and_false,
        Bool.false_eq_true, if_false]
      cases hss : pyStartsWith (sampledFormulaAt st lhs sampler attempts) lhs
        with
      | false =>
          simp only [hss, Bool.false_eq_true, if_false]
          exact ih (attempts + 1) (by omega)
      | true =>
          rw [hss] at hacc
          simp only [Bool.true_and] at hacc
          simp only [hss, if_true]
          cases hsp : splitFirstChar '='
              (sampledFormulaAt st lhs sampler attempts) with
          | none =>
              exact ih (attempts + 1) (by omega)
          | some pr =>
              obtain ⟨l2, r2⟩ := pr
              rw [hsp] at hacc
              dsimp only [] at hacc ⊢
              cases hev : evalExprString st (pyStrip r2) with
              | error e =>
                  exact ih (attempts + 1) (by omega)
              | ok v =>
                  rw [hev] at hacc
                  dsimp only [] at hacc
                  simp only [hacc, Bool.false_eq_true, if_false]
                  exact ih (attempts + 1) (by omega)

/-- Shape of a completed retry loop: either it exhausted its budget with no
output line and the counter at the budget, or it broke on an accepted
candidate with exactly one output line and the counter strictly below the
budget. -/
theorem lmLoop_shape
    (m : Nat) (sampler : Nat → String) (lhs et : String) (promptOk : Bool)
    (useLm : Bool) :
    ∀ fuel attempts st st2 out att2, attempts + fuel = m →
      lmLoop m sampler lhs et promptOk useLm fuel st attempts =
        some (st2, out, att2) →
      (out = [] ∧ m ≤ att2) ∨ (∃ line, out = [line] ∧ att2 < m) := by
  intro fuel
  induction fuel with
  | zero =>
      intro attempts st st2 out att2 h hrun
      simp [lmLoop] at hrun
      left
      exact ⟨hrun.2.1, by omega⟩
  | succ n ih =>
      intro attempts st st2 out att2 h hrun
      have hlt : attempts < m := by omega
      simp only [lmLoop] at hrun
      rw [if_pos hlt] at hrun
      split at hrun
      · simp at hrun
      · split at hrun
        · split at hrun
          · exact ih (attempts + 1) st st2 out att2 (by omega) hrun
          · split at hrun
            · exact ih (attempts + 1) st st2 out att2 (by omega) hrun
            · split at hrun
              · simp at hrun
                right
                refine ⟨_, hrun.2.1.symm, ?_⟩
                omega
              · exact ih (attempts + 1) st st2 out att2 (by omega) hrun
        · exact ih (attempts + 1) st st2 out att2 (by omega) hrun

/-- Characters whose `repr` rendering is themselves: no quote, backslash or
control character. -/
def plainReprChars (s : String) : Bool :=
  s.data.all (fun c =>
    !(c = '\'' || c = '\\' || c = '\n' || c = '\t' || c = '\r'))

/-- C1: running the Clock configuration (one `world` entity, one operator
`world_time = world_time + 1` with `use_lm` false and `next` wired to
itself, compiled initial state with `world_time = 0`) for three driver steps
yields exactly three history steps with output lines `world_time = 1`,
`world_time = 2`, `world_time = 3`, and the final state has
`world_time == 3`. -/
theorem clock_run_three_steps :
    (clockRun 3).map
        (fun r =>
          (r.2.map (·.output), r.2.length, lookupState r.1 "world_time")) =
      some ([["world_time = 1"], ["world_time = 2"], ["world_time = 3"]], 3,
        some (.int 3)) := rfl

/-- Counterexample to C6: on the empty history, `query_history` returns the
one-character string `"\n"` (because `''.rstrip('\n') + '\n'` is `'\n'`), not
the empty string. -/
theorem query_history_empty_newline :
    query_history [] [] = "\n" ∧ query_history [] [] ≠ "" :=
  ⟨rfl, by decide⟩

/-- C6 (amended): for every query, `query_history` on the empty history
returns the single newline character `"\n"` — length one, not the empty
string. -/
theorem query_history_empty (kwargs : List (String × PyVal)) :
    query_history [] kwargs = "\n" := rfl

/-- C10: in `query_history` matching, a step whose snapshot lacks the
queried key is read as `None` by `dict.get`: the pair `(k, None)` matches
such a step, and for a list-valued query the step matches exactly when
`None` is an element of the list.  The embedded match is a total function,
mirroring that `dict.get` and list membership never raise. -/
theorem query_missing_key_matches (step : HistoryStep) (k : String)
    (l : PyValList) (hk : lookupState step.state k = Option.none) :
    stepMatches step [(k, PyVal.none)] = true ∧
    stepMatches step [(k, PyVal.list l)] = pyIn PyVal.none l := by
  constructor
  · simp [stepMatches, pyGet, hk, pyEq]
  · simp [stepMatches, pyGet, hk]

/-- Concrete instance of the missing-key matching theorem. -/
theorem query_missing_key_matches_witness :
    stepMatches (HistoryStep.mk [("a", PyVal.int 1)] [] (.str "op"))
        [("missing", PyVal.none)] = true ∧
    stepMatches (HistoryStep.mk [("a", PyVal.int 1)] [] (.str "op"))
        [("missing", PyVal.list (.cons PyVal.none .nil))] =
      pyIn PyVal.none (.cons PyVal.none .nil) :=
  query_missing_key_matches (HistoryStep.mk [("a", PyVal.int 1)] []
    (.str "op")) "missing" (.cons PyVal.none .nil) rfl

/-- C4: evaluation of the embedded code at the failing input.  A default
right-hand side evaluating to the boolean `True` derives expected type
`number` (not `bool`), because `isinstance(True, (int, float))` holds in
Python and makes the `elif isinstance(..., bool)` branch unreachable; the
sampled numeric candidate `1` is then accepted and written to the state,
where the claim (and spec) say a non-boolean must be rejected. -/
theorem bool_default_rhs_accepts_numeric_sample :
    deriveExpectedType (.bool true) = "number" ∧
    acceptsType (deriveExpectedType (.bool true)) (.int 1) = true ∧
    (run_formula
        [("state", .stateRef), ("prompt", .str ""), ("flag", .bool true)]
        [("id", .str "op"), ("formula", .str "flag = True"),
         ("use_lm", .bool true), ("next", .str "op")] 3
        (fun _ => "flag = 1") []).map
        (fun r => (r.2, lookupState r.1 "flag")) =
      some (["flag = 1 # sampled"], some (.int 1)) :=
  ⟨rfl, rfl, rfl⟩

/-- Counterexample to C3: in the heap model, the snapshot recorded for step
one lives at address 2 and reads `1` through the nested path `a, b` right
after step one, but reads `2` through the same path after step two — the
execution that produced step two mutated the history step recorded at step
one, so the snapshot is not a defensive (deep) copy. -/
theorem snapshot_nested_value_mutated :
    ((heapRun aliasInitialHeap (aliasFormulas.take 1)).map
        (fun r => (r.2, readHeapPath r.1 2 ["a", "b"])) =
      some ([2], some (.int 1))) ∧
    ((heapRun aliasInitialHeap aliasFormulas).map
        (fun r => (r.2, readHeapPath r.1 2 ["a", "b"])) =
      some ([2, 3], some (.int 2))) ∧
    PyVal.int 1 ≠ PyVal.int 2 :=
  ⟨rfl, rfl, by simp⟩

/-- C3 (amended): the snapshot placed in history is a shallow copy — its own
top-level entry table is never touched by later steps, but nested container
values reachable through its references are shared with the live state and
are mutated by later subscript assignments. -/
theorem snapshot_is_shallow_copy :
    ∃ h1 h2 : Heap,
      heapRun aliasInitialHeap (aliasFormulas.take 1) = some (h1, [2]) ∧
      heapRun aliasInitialHeap aliasFormulas = some (h2, [2, 3]) ∧
      heapGet h2 2 = heapGet h1 2 ∧
      readHeapPath h1 2 ["a", "b"] = some (.int 1) ∧
      readHeapPath h2 2 ["a", "b"] = some (.int 2) :=
  ⟨_, _, rfl, rfl, rfl, rfl, rfl⟩

/-- Counterexample to C2: a non-LM operator whose right-hand side fails to
evaluate (`undefined_xyz` is not defined) returns with an empty output
list — the caught exception path of the direct evaluation emits no
assignment line. -/
theorem runner_empty_output_on_eval_error :
    (run_formula [("state", .stateRef), ("prompt", .str "")]
        [("id", .str "op"), ("formula", .str "x = undefined_xyz"),
         ("use_lm", .bool false), ("next", .str "op")] 3 (fun _ => "")
        []).map (fun r => r.2) = some [] := rfl

/-- Counterexample to C8: the accepted-sample path renders a string value via
Python `repr`, which uses single quotes — the output line is not wrapped in
double quotes. -/
theorem sampled_string_single_quoted :
    ((run_formula
        [("state", .stateRef), ("prompt", .str ""), ("msg", .str "hi")]
        [("id", .str "op"), ("formula", .str "msg = \"hello\""),
         ("use_lm", .bool true), ("next", .str "op")] 3
        (fun _ => "msg = \"world\"") []).map (fun r => r.2) =
      some ["msg = \x27world\x27 # sampled"]) ∧
    "msg = \x27world\x27 # sampled" ≠ "msg = \"world\" # sampled" :=
  ⟨rfl, by decide⟩

/-- Counterexample to C9: compiling an entity `agent` whose variable maps
attribute `index` to the initial value 5 yields `agent_index = 0` in the
returned state — the default update runs after component initialisation and
overwrites the configured value, where the claim predicts 5. -/
theorem component_collides_with_default :
    (generate_operators_state [("agent", ["heading"])]
        [("heading", [("index", .int 5)])]).map
        (fun st => lookupState st "agent_index") =
      some (some (.int 0)) ∧
    some (PyVal.int 0) ≠ some (PyVal.int 5) :=
  ⟨rfl, by simp⟩

/-- C5: when the LM retry loop uses up all attempts without an accepted
candidate — no candidate passes the full acceptance test, whatever the
rejection mode at each attempt (shape failure, missing `=`, evaluation
error, or type mismatch) — `run_formula` returns the state unchanged (given
the driver invariant that the state already holds its self-reference) and
appends exactly one output line, the fallback assignment of the default
left-hand side to its prior state value with the ` # sampled` suffix. -/
theorem run_formula_exhaustion_fallback
    (st fd : PyState) (m : Nat) (sampler : Nat → String)
    (hist : List HistoryStep) (f p ctx : String)
    (hstate : lookupState st "state" = some PyVal.stateRef)
    (hf : lookupState fd "formula" = some (.str f))
    (hprompt : resolvePrompt fd st = some (.str p))
    (huse : resolveUseLm fd st = (false, true))
    (hctx : buildContext fd st hist = some ctx)
    (hs : ∀ n, candidateAccepted st (pyStrip (beforeFirstChar '=' f))
        (lmExpectedType st f) sampler n = false) :
    run_formula st fd m sampler hist =
      some (st, [exhaustLine st (pyStrip (beforeFirstChar '=' f)) true]) := by
  have hst1 : setKey st "state" PyVal.stateRef = st := setKey_self _ _ _ hstate
  unfold run_formula
  rw [hf]
  simp only [Option.bind_eq_bind', Option.some_bind', hst1]
  rw [hprompt, huse]
  simp only [Option.bind_eq_bind', Option.some_bind', Bool.not_false, if_true,
    promptAugmentOk]
  rw [hctx]
  simp only [Option.bind_eq_bind', Option.some_bind']
  rw [lmLoop_never_accepted m sampler (pyStrip (beforeFirstChar '=' f))
    (lmExpectedType st f) true st hs m 0 (by omega)]
  simp

/-- Concrete instance of the exhaustion-fallback theorem exercising every
rejection mode: attempt 0 fails the shape check (`nope`), attempt 1 starts
with the left-hand side but fails to evaluate (`flag = undefined_xyz`), and
attempt 2 evaluates to `None`, the wrong type for the numeric expectation;
three attempts are spent and the single fallback line is emitted with the
state untouched. -/
theorem run_formula_exhaustion_fallback_witness :
    run_formula
        [("state", .stateRef), ("prompt", .str ""), ("flag", .bool true)]
        [("id", .str "op"), ("formula", .str "flag = True"),
         ("use_lm", .bool true), ("next", .str "op")] 3
        (fun n => match n with
          | 0 => "nope"
          | 1 => "flag = undefined_xyz"
          | _ => "flag = None") [] =
      some ([("state", .stateRef), ("prompt", .str ""),
             ("flag", .bool true)],
        [exhaustLine
          [("state", .stateRef), ("prompt", .str ""), ("flag", .bool true)]
          (pyStrip (beforeFirstChar '=' "flag = True")) true]) :=
  run_formula_exhaustion_fallback
    [("state", .stateRef), ("prompt", .str ""), ("flag", .bool true)]
    [("id", .str "op"), ("formula", .str "flag = True"),
     ("use_lm", .bool true), ("next", .str "op")] 3
    (fun n => match n with
      | 0 => "nope"
      | 1 => "flag = undefined_xyz"
      | _ => "flag = None") []
    "flag = True" "" "" rfl rfl rfl rfl rfl
    (fun n =>
      match n with
      | 0 => rfl
      | 1 => rfl
      | Nat.succ (Nat.succ _) => rfl)

/-- A successful direct-evaluation `try` block emits exactly one output
line. -/
theorem directTry_shape (st1 : PyState) (fv : PyVal) (ula : Bool)
    (r : PyState × List String) (h : directTry st1 fv ula = some r) :
    ∃ line, r.2 = [line] := by
  unfold directTry at h
  simp only [Option.bind_eq_bind', Option.bind_eq_some] at h
  obtain ⟨f, hf, h⟩ := h
  obtain ⟨pr, hsp, h⟩ := h
  obtain ⟨l2, r2⟩ := pr
  obtain ⟨v, hv, h⟩ := h
  rw [show (l2, r2).1 = l2 from rfl] at h
  split at h
  · cases hupd : updateSubscriptState st1 (extractSubscriptKeys
        (pyStrip l2).data) v with
    | none =>
        rw [hupd] at h
        simp at h
    | some st2 =>
        rw [hupd] at h
        simp at h
        exact ⟨directOutputLine (pyStrip l2) v ula, by rw [← h]⟩
  · simp at h
    exact ⟨directOutputLine (pyStrip l2) v ula, by rw [← h]⟩

/-- C2 (amended): for an attempt budget of at least one, a completed
`run_formula` call returns an empty output list exactly when the non-LM
direct-evaluation path was taken with a non-`blank` formula whose `try`
block raised (unsplittable formula, evaluation error, or failed subscript
walk); every other completed call emits at least one line (direct
assignment, blank comment, accepted sample, or exhaustion fallback). -/
theorem run_formula_output_empty_iff
    (st fd : PyState) (m : Nat) (sampler : Nat → String)
    (hist : List HistoryStep) (st2 : PyState) (out : List String)
    (hm : 1 ≤ m)
    (hrun : run_formula st fd m sampler hist = some (st2, out)) :
    out = [] ↔
      ∃ fv, lookupState fd "formula" = some fv ∧
        (resolveUseLm fd (setKey st "state" PyVal.stateRef)).1 = true ∧
        pyEq fv (.str "blank") = false ∧
        directTry (setKey st "state" PyVal.stateRef) fv
          (resolveUseLm fd (setKey st "state" PyVal.stateRef)).2 =
          Option.none := by
  unfold run_formula at hrun
  cases hfv : lookupState fd "formula" with
  | none => rw [hfv] at hrun; simp at hrun
  | some fv =>
  rw [hfv] at hrun
  simp only [Option.bind_eq_bind', Option.some_bind'] at hrun
  cases hpr : resolvePrompt fd (setKey st "state" PyVal.stateRef) with
  | none => rw [hpr] at hrun; simp at hrun
  | some prompt =>
  rw [hpr] at hrun
  simp only [Option.some_bind'] at hrun
  rcases hu : resolveUseLm fd (setKey st "state" PyVal.stateRef) with ⟨ud, ula⟩
  rw [hu] at hrun
  cases ud with
  | false =>
      simp only [Bool.not_false, if_true] at hrun
      cases fv with
      | str f =>
          simp only [Option.bind_eq_bind', Option.some_bind'] at hrun
          cases hctx :
              buildContext fd (setKey st "state" PyVal.stateRef) hist with
          | none => rw [hctx] at hrun; simp at hrun
          | some ctx =>
          rw [hctx] at hrun
          simp only [Option.some_bind', Option.bind_eq_some] at hrun
          obtain ⟨⟨st3, out3, att3⟩, hloop, hres⟩ := hrun
          have hshape := lmLoop_shape m sampler
            (pyStrip (beforeFirstChar '=' f)) _ (promptAugmentOk prompt)
            ula m 0 (setKey st "state" PyVal.stateRef) st3 out3 att3
            (by omega) hloop
          dsimp only [] at hres
          constructor
          · intro hout
            exfalso
            rcases hshape with ⟨hout3, hge⟩ | ⟨line, hout3, hlt⟩
            · rw [if_pos hge] at hres
              simp only [pure, Option.some.injEq, Prod.mk.injEq] at hres
              rw [hout, hout3] at hres
              simp at hres
            · rw [if_neg (by omega)] at hres
              simp only [pure, Option.some.injEq, Prod.mk.injEq] at hres
              rw [hout, hout3] at hres
              simp at hres
          · rintro ⟨fv2, hfv2, h1, hbf2, hnone2⟩
            simp at h1
      | none => simp at hrun
      | bool b => simp at hrun
      | int n => simp at hrun
      | float q => simp at hrun
      | tuple es => simp at hrun
      | list es => simp at hrun
      | dict es => simp at hrun
      | stateRef => simp at hrun
      | handle t => simp at hrun
  | true =>
      simp only [Bool.not_true, Bool.false_eq_true, if_false] at hrun
      rcases hd : directPath (setKey st "state" PyVal.stateRef) fv ula
        with ⟨dst, dout⟩
      rw [hd] at hrun
      rw [if_neg (by omega)] at hrun
      simp only [pure, Option.some.injEq, Prod.mk.injEq] at hrun
      obtain ⟨hst2, hout⟩ := hrun
      by_cases hb : pyEq fv (.str "blank") = true
      · unfold directPath at hd
        rw [hb] at hd
        simp only [Bool.not_true, Bool.false_eq_true, if_false,
          Prod.mk.injEq] at hd
        constructor
        · intro h0
          rw [← hout, ← hd.2] at h0
          simp at h0
        · rintro ⟨fv2, hfv2, h1, hbf2, hnone2⟩
          simp only [Option.some.injEq] at hfv2
          subst hfv2
          rw [hb] at hbf2
          simp at hbf2
      · have hbf : pyEq fv (.str "blank") = false := by
          simpa using hb
        unfold directPath at hd
        rw [hbf] at hd
        simp only [Bool.not_false, if_true] at hd
        cases hdt : directTry (setKey st "state" PyVal.stateRef) fv ula with
        | some r =>
            rw [hdt] at hd
            change r = (dst, dout) at hd
            obtain ⟨line, hline⟩ :=
              directTry_shape (setKey st "state" PyVal.stateRef) fv ula r hdt
            constructor
            · intro h0
              have hd2 : r.2 = dout := by rw [hd]
              have hdl : dout = [line] := by rw [← hd2]; exact hline
              rw [← hout, hdl] at h0
              simp at h0
            · rintro ⟨fv2, hfv2, h1, hbf2, hnone2⟩
              simp only [Option.some.injEq] at hfv2
              subst hfv2
              have hnone3 : directTry (setKey st "state" PyVal.stateRef) fv
                  ula = Option.none := hnone2
              rw [hdt] at hnone3
              simp at hnone3
        | none =>
            rw [hdt] at hd
            change (setKey st "state" PyVal.stateRef, ([] : List String)) =
              (dst, dout) at hd
            simp only [Prod.mk.injEq] at hd
            constructor
            · intro _
              exact ⟨fv, rfl, rfl, hbf, hdt⟩
            · intro _
              rw [← hout, ← hd.2]

/-- Concrete instance of the empty-output characterisation, at the operator
whose right-hand side names an undefined variable. -/
theorem run_formula_output_empty_iff_witness :
    (([] : List String) = [] ↔
      ∃ fv,
        lookupState
          [("id", .str "op"), ("formula", .str "x = undefined_xyz"),
           ("use_lm", .bool false), ("next", .str "op")] "formula" =
          some fv ∧
        (resolveUseLm
          [("id", .str "op"), ("formula", .str "x = undefined_xyz"),
           ("use_lm", .bool false), ("next", .str "op")]
          (setKey [("state", .stateRef), ("prompt", .str "")] "state"
            PyVal.stateRef)).1 = true ∧
        pyEq fv (.str "blank") = false ∧
        directTry
          (setKey [("state", .stateRef), ("prompt", .str "")] "state"
            PyVal.stateRef) fv
          (resolveUseLm
            [("id", .str "op"), ("formula", .str "x = undefined_xyz"),
             ("use_lm", .bool false), ("next", .str "op")]
            (setKey [("state", .stateRef), ("prompt", .str "")] "state"
              PyVal.stateRef)).2 = Option.none) :=
  run_formula_output_empty_iff
    [("state", .stateRef), ("prompt", .str "")]
    [("id", .str "op"), ("formula", .str "x = undefined_xyz"),
     ("use_lm", .bool false), ("next", .str "op")]
    3 (fun _ => "") [] [("state", .stateRef), ("prompt", .str "")] []
    (by omega) rfl

/-- Rebuilding a string from its character data is the identity. -/
theorem strMk_data (s : String) : (⟨s.data⟩ : String) = s := by
  cases s
  rfl

/-- A positive budget at least the length slices to the whole string. -/
theorem pyTailSlice_of_le (s : String) (m : Int) (h0 : 0 < m)
    (hle : (pyLen s : Int) ≤ m) : pyTailSlice s m = s := by
  unfold pyTailSlice
  rw [if_pos h0]
  have hz : s.data.length - m.toNat = 0 := by
    unfold pyLen at hle
    omega
  rw [hz]
  simp only [List.drop_zero]

/-- A positive budget below the length slices to exactly that many
characters. -/
theorem pyTailSlice_len (s : String) (m : Int) (h0 : 0 < m)
    (hlt : m < (pyLen s : Int)) : (pyLen (pyTailSlice s m) : Int) = m := by
  unfold pyTailSlice pyLen
  rw [if_pos h0]
  show (((s.data.drop (s.data.length - m.toNat)).length : Nat) : Int) = m
  rw [List.length_drop]
  unfold pyLen at hlt
  omega

/-- Counterexample to C7: with `max_context_length = 0` in the state and a
non-empty matching context, `read_context` flags truncation (`len > 0`) but
the Python slice `context[-0:]` keeps the whole context, so the result is
the notice followed by the entire context, not by the last zero
characters. -/
theorem read_context_zero_budget_keeps_context :
    read_context [HistoryStep.mk [("k", .int 1)] ["a"] (.str "op")]
        (some []) [("max_context_length", .int 0)] =
      some (truncationNotice ++ "a\n") ∧
    truncationNotice ++ "a\n" ≠ truncationNotice ++ "" :=
  ⟨rfl, by decide⟩

/-- C7 (amended): for a positive `max_context_length` m, `read_context`
returns the full matching context unchanged when its length is at most m,
and otherwise the fixed truncation notice followed by exactly the last m
characters; the notice appears exactly when truncation occurred.  At
`max_context_length = 0` the Python slice `[-0:]` keeps the whole string,
so the claim fails there. -/
theorem read_context_truncation (hist : List HistoryStep)
    (q : List (String × PyVal)) (st : PyState) (m : Int)
    (hmax : getMaxContextLength st = some m) (hpos : 1 ≤ m) :
    ((pyLen (query_history hist (expandQuery q st)) : Int) ≤ m →
        read_context hist (some q) st =
          some (query_history hist (expandQuery q st))) ∧
    (m < (pyLen (query_history hist (expandQuery q st)) : Int) →
        read_context hist (some q) st =
          some (truncationNotice ++
            pyTailSlice (query_history hist (expandQuery q st)) m) ∧
        (pyLen (pyTailSlice (query_history hist (expandQuery q st)) m) : Int)
          = m) := by
  simp only [read_context, hmax]
  constructor
  · intro hle
    have hnt : ¬((pyLen (query_history hist (expandQuery q st)) : Int) > m) :=
      by omega
    rw [if_neg hnt]
    rw [pyTailSlice_of_le _ m (by omega) hle]
  · intro hlt
    constructor
    · rw [if_pos (by omega)]
    · exact pyTailSlice_len _ m (by omega) hlt

/-- Concrete instance of the truncation theorem: one history step with
output `a` gives the context `a\n` of length 2; with budget 1 the result is
the notice followed by the final newline, exactly one character. -/
theorem read_context_truncation_witness :
    read_context [HistoryStep.mk [("k", .int 1)] ["a"] (.str "op")]
        (some []) [("max_context_length", .int 1)] =
      some (truncationNotice ++
        pyTailSlice
          (query_history [HistoryStep.mk [("k", .int 1)] ["a"] (.str "op")]
            (expandQuery [] [("max_context_length", .int 1)])) 1) ∧
    (pyLen
      (pyTailSlice
        (query_history [HistoryStep.mk [("k", .int 1)] ["a"] (.str "op")]
          (expandQuery [] [("max_context_length", .int 1)])) 1) : Int) = 1 :=
  (read_context_truncation [HistoryStep.mk [("k", .int 1)] ["a"] (.str "op")]
    [] [("max_context_length", .int 1)] 1 rfl (by omega)).2 (by decide)

/-- Appending the empty string is the identity. -/
theorem strAppend_empty (s : String) : s ++ "" = s := by
  cases s
  show String.mk (_ ++ []) = _
  rw [List.append_nil]

/-- Characters outside the escape set render as themselves. -/
theorem strConcatMap_plain (q : Char) (l : List Char)
    (h : ∀ c ∈ l, pyReprEscapeChar q c = String.singleton c) :
    strConcatMap (pyReprEscapeChar q) l = ⟨l⟩ := by
  induction l with
  | nil => rfl
  | cons c rest ih =>
      simp only [strConcatMap]
      rw [h c (by simp), ih (fun c2 hc2 => h c2 (by simp [hc2]))]
      show (⟨[c]⟩ : String) ++ (⟨rest⟩ : String) = _
      rfl

/-- Python `repr` of a string without quotes, backslashes or control
characters is the string wrapped in single quotes. -/
theorem pyReprStr_plain (s : String) (h : plainReprChars s = true) :
    pyReprStr s = "\x27" ++ s ++ "\x27" := by
  simp only [plainReprChars, List.all_eq_true] at h
  have hnq : s.data.contains '\'' = false := by
    cases hcc : s.data.contains '\'' with
    | false => rfl
    | true =>
        exfalso
        have hm : '\'' ∈ s.data := by
          have := List.mem_of_elem_eq_true hcc
          exact this
        have := h '\'' hm
        simp at this
  unfold pyReprStr
  rw [hnq]
  simp only [Bool.false_and, Bool.false_eq_true, if_false]
  rw [strConcatMap_plain '\'' s.data]
  intro c hc
  have h2 := h c hc
  simp only [Bool.not_eq_true', Bool.or_eq_false_iff, decide_eq_false_iff_not]
    at h2
  unfold pyReprEscapeChar
  rw [if_neg h2.1.1.1.2, if_neg h2.1.1.2, if_neg h2.1.2, if_neg h2.2,
    if_neg h2.1.1.1.1]

/-- C8 (amended): string values render differently on the three paths — the
direct-evaluation path wraps them in literal double quotes, the
accepted-sample path renders them via Python `repr` (single quotes for a
string without quotes, backslashes or control characters), and the
sampler-exhaustion path wraps them in literal single quotes; the latter two
carry the ` # sampled` suffix. -/
theorem string_rendering_per_path (lhs s : String) (st : PyState)
    (hplain : plainReprChars s = true)
    (hlook : lookupState st lhs = some (.str s)) :
    directOutputLine lhs (.str s) false = lhs ++ " = \"" ++ s ++ "\"" ∧
    acceptedOutputLine lhs (.str s) true =
      lhs ++ " = " ++ ("\x27" ++ s ++ "\x27") ++ " # sampled" ∧
    exhaustLine st lhs true =
      (lhs ++ " = \x27" ++ s ++ "\x27") ++ " # sampled" := by
  refine ⟨?_, ?_, ?_⟩
  · show (lhs ++ " = \"" ++ s ++ "\"") ++ "" = _
    rw [strAppend_empty]
  · show (lhs ++ " = " ++ pyRepr (.str s)) ++ " # sampled" = _
    rw [show pyRepr (.str s) = pyReprStr s from rfl, pyReprStr_plain s hplain]
  · unfold exhaustLine
    rw [show pyGet st lhs (PyVal.str "Unknown") = .str s from by
      simp [pyGet, hlook]]
    rfl

/-- Concrete instance of the per-path rendering theorem at the string
`world`. -/
theorem string_rendering_per_path_witness :
    directOutputLine "msg" (.str "world") false = "msg" ++ " = \"" ++
      "world" ++ "\"" ∧
    acceptedOutputLine "msg" (.str "world") true =
      "msg" ++ " = " ++ ("\x27" ++ "world" ++ "\x27") ++ " # sampled" ∧
    exhaustLine [("msg", PyVal.str "world")] "msg" true =
      ("msg" ++ " = \x27" ++ "world" ++ "\x27") ++ " # sampled" :=
  string_rendering_per_path "msg" "world" [("msg", PyVal.str "world")]
    (by decide) rfl

/-- Reading the five default keys after the final default update always
yields the default values, whatever state the update was applied to. -/
theorem lookup_after_default_update (base : PyState) :
    lookupState (updateState base defaultStateEntries) "agent_index" =
      some (.int 0) ∧
    lookupState (updateState base defaultStateEntries) "prompt" =
      some (.str "") ∧
    lookupState (updateState base defaultStateEntries)
      "max_context_length" = some (.int 1000000) ∧
    lookupState (updateState base defaultStateEntries) "sample_mode" =
      some (.str "full") ∧
    lookupState (updateState base defaultStateEntries) "all" =
      some (.bool true) := by
  unfold updateState defaultStateEntries
  simp only [List.foldl]
  refine ⟨?_, ?_, ?_, ?_, ?_⟩
  · rw [lookupState_setKey_diff _ _ _ _ (by decide),
      lookupState_setKey_diff _ _ _ _ (by decide),
      lookupState_setKey_diff _ _ _ _ (by decide),
      lookupState_setKey_diff _ _ _ _ (by decide),
      lookupState_setKey_same]
  · rw [lookupState_setKey_diff _ _ _ _ (by decide),
      lookupState_setKey_diff _ _ _ _ (by decide),
      lookupState_setKey_diff _ _ _ _ (by decide),
      lookupState_setKey_same]
  · rw [lookupState_setKey_diff _ _ _ _ (by decide),
      lookupState_setKey_diff _ _ _ _ (by decide),
      lookupState_setKey_same]
  · rw [lookupState_setKey_diff _ _ _ _ (by decide),
      lookupState_setKey_same]
  · rw [lookupState_setKey_same]

/-- C9 (amended): `generate_operators` injects the default keys
(`agent_index = 0`, `prompt = ""`, `max_context_length = 1000000`,
`sample_mode = "full"`, `all = True`) into the state after initialising the
components, so the returned initial state always holds the default values
for these keys — a component whose full name collides with a default key is
overwritten by the default, not preserved. -/
theorem generate_operators_state_defaults
    (entities : List (String × List String))
    (varTable : List (String × List (String × PyVal))) (st : PyState)
    (h : generate_operators_state entities varTable = some st) :
    lookupState st "agent_index" = some (.int 0) ∧
    lookupState st "prompt" = some (.str "") ∧
    lookupState st "max_context_length" = some (.int 1000000) ∧
    lookupState st "sample_mode" = some (.str "full") ∧
    lookupState st "all" = some (.bool true) := by
  unfold generate_operators_state at h
  dsimp only [] at h
  cases hb : buildComponents entities varTable [("state", PyVal.stateRef)]
      with
  | none => rw [hb] at h; simp at h
  | some comps =>
      rw [hb] at h
      simp only [Option.bind_eq_bind', Option.some_bind', pure,
        Option.some.injEq] at h
      subst h
      exact lookup_after_default_update _

/-- Concrete instance of the default-injection theorem, at the
configuration whose `agent_index` component collides with a default key. -/
theorem generate_operators_state_defaults_witness :
    ∃ st, generate_operators_state [("agent", ["heading"])]
        [("heading", [("index", .int 5)])] = some st ∧
      lookupState st "agent_index" = some (.int 0) :=
  ⟨[("state", .stateRef), ("agent_index", .int 0), ("prompt", .str ""),
    ("max_context_length", .int 1000000), ("sample_mode", .str "full"),
    ("all", .bool true)], rfl,
   (generate_operators_state_defaults [("agent", ["heading"])]
     [("heading", [("index", .int 5)])] _ rfl).1⟩
